import Mathlib

/-!
Shallow embedding of the analysis-routing logic of `dashboard_customerdb.py`:
variable-kind classification, the univariate / bivariate / multivariate
dispatch chains, the mixed-selection MANOVA / two-way-ANOVA paths (column-name
sanitization, `dropna`, `rename`, formula construction, try/except around the
model fit), and the spec's filtered-view model.
-/

namespace Dashboard

/-- Column kinds as the script derives them: `select_dtypes(include='number')`
gives `numeric`, `select_dtypes(include='object')` gives `categorical`; the two
`pd.to_datetime`-parsed date columns have dtype `datetime64` and fall in
neither list. -/
inductive Kind where
  | numeric
  | categorical
  | datetime
deriving DecidableEq, Repr

/-- A column: its raw name and its dtype-derived kind (membership in
`numeric_cols` / `categorical_cols` is `kind = numeric` / `kind = categorical`). -/
structure Column where
  name : String
  kind : Kind
deriving DecidableEq, Repr

/-- A dataframe row: an association list from column name to cell value,
`none` standing for a missing value (NaN). Cell payloads are modelled as `Int`. -/
abbrev Row := List (String × Option Int)

/-- Cell lookup: the value stored for column `c` in row `r` (missing column or
NaN both give `none`). -/
def getCell (r : Row) (c : String) : Option Int :=
  match r.find? (fun p => p.1 == c) with
  | some p => p.2
  | none => none

/-- `df[cols].dropna()`: keep exactly the rows whose every column in `cols`
holds a present (non-NaN) value. -/
def dropna (cols : List String) (rows : List Row) : List Row :=
  rows.filter (fun r => cols.all (fun c => (getCell r c).isSome))

/-- Simultaneous column rename, as `df.rename(columns=mapping)`: a key found in
the mapping is replaced, any other key kept. -/
def renameKey (m : List (String × String)) (k : String) : String :=
  match m.find? (fun q => q.1 == k) with
  | some q => q.2
  | none => k

/-- `df.rename(columns=mapping)` applied to every row of the frame. -/
def renameCols (m : List (String × String)) (rows : List Row) : List Row :=
  rows.map (fun r => r.map (fun p => (renameKey m p.1, p.2)))

/-- `name.replace(" ", "_").replace("-", "_")`: both patterns are single
characters, so the two sequential replaces act as one character map. -/
def sanitize (s : String) : String :=
  String.mk (s.data.map (fun ch => if ch = ' ' ∨ ch = '-' then '_' else ch))

/-- One outcome of a guarded model fit (`try`/`except` body). -/
inductive FitOutcome where
  | summary (text : String)
  | errorShown (msg : String)
deriving DecidableEq, Repr

/-- Wrap a fallible fit call the way the script's `try`/`except` does: a normal
return is displayed as the summary, an exception is displayed as
`st.error(failMsg + e)`. -/
def guardFit (res : Except String String) (failMsg : String) : FitOutcome :=
  match res with
  | Except.ok s => FitOutcome.summary s
  | Except.error e => FitOutcome.errorShown (failMsg ++ e)

/-- Everything a dispatch branch can render. Chart constructors record the
recipe chosen and the column names (and, for the mixed statistical recipes, the
data actually handed to the plot/fit and the model formula). -/
inductive Output where
  | histBox (col : String)
  | countplot (col : String)
  | scatter (x y : String)
  | countGrid (x y : String)
  | violin (num cat : String)
  | warning (msg : String)
  | info (msg : String)
  | heatmap (cols : List String)
  | stackedBar (x hue : String)
  | manovaCase (num1 num2 cat : String) (plotData : List Row)
      (formula : String) (fit : FitOutcome)
  | anovaCase (num cat1 cat2 : String) (fitData : List Row)
      (formula : String) (fit : FitOutcome)
  | noOutput
deriving DecidableEq, Repr

/-- Univariate panel: numeric columns get the histogram + boxplot pair, every
other column falls to the `else` countplot branch. -/
def univariateRoute (c : Column) : Output :=
  if c.kind == Kind.numeric then Output.histBox c.name
  else Output.countplot c.name

/-- Bivariate panel dispatch: numeric×numeric scatter, categorical×categorical
countplot grid, otherwise the mixed branch (violin when one numeric and one
categorical column are present, else the warning). -/
def bivarRoute (x y : Column) : Output :=
  if x.kind == Kind.numeric && y.kind == Kind.numeric then
    Output.scatter x.name y.name
  else if x.kind == Kind.categorical && y.kind == Kind.categorical then
    Output.countGrid x.name y.name
  else
    let numCols := [x, y].filter (fun c => c.kind == Kind.numeric)
    let catCols := [x, y].filter (fun c => c.kind == Kind.categorical)
    if numCols.length == 0 || catCols.length == 0 then
      Output.warning "Please select one numeric and one categorical variable."
    else
      match numCols, catCols with
      | n :: _, c :: _ => Output.violin n.name c.name
      | _, _ => Output.noOutput

/-- `selected_numeric`: the selected features lying in `numeric_cols`,
selection order preserved. -/
def selNumeric (features : List Column) : List Column :=
  features.filter (fun c => c.kind == Kind.numeric)

/-- `selected_categorical`: the selected features lying in `categorical_cols`,
selection order preserved. -/
def selCategorical (features : List Column) : List Column :=
  features.filter (fun c => c.kind == Kind.categorical)

/-- `df_sel = df[selected_numeric + selected_categorical].dropna()`. -/
def mixedData (sn sc : List Column) (df : List Row) : List Row :=
  dropna ((sn ++ sc).map Column.name) df

/-- The MANOVA formula string `f"{num1} + {num2} ~ C({safe_cat})"`. -/
def manovaFormula (n1 n2 cat : Column) : String :=
  n1.name ++ " + " ++ n2.name ++ " ~ C(" ++ sanitize cat.name ++ ")"

/-- The two-way ANOVA formula string
`f"{safe_num} ~ C({safe_cat1}) * C({safe_cat2})"`. -/
def anovaFormula (num c1 c2 : Column) : String :=
  sanitize num.name ++ " ~ C(" ++ sanitize c1.name ++ ") * C(" ++ sanitize c2.name ++ ")"

/-- Multivariate panel dispatch, parameterized by the two external fitting
collaborators (`MANOVA.from_formula(...).mv_test()` and
`ols(...).fit()`/`anova_lm`), each taking the formula and the data frame and
either returning a rendered summary or raising. -/
def multiRoute (fitManova fitOls : String → List Row → Except String String)
    (df : List Row) (features : List Column) : Output :=
  if features.length < 2 then
    Output.info "Please select at least two features."
  else
    let sn := selNumeric features
    let sc := selCategorical features
    if 2 ≤ sn.length ∧ sc.length = 0 then
      Output.heatmap (sn.map Column.name)
    else if 2 ≤ sc.length ∧ sn.length = 0 then
      match sc with
      | c0 :: c1 :: _ => Output.stackedBar c0.name c1.name
      | _ => Output.noOutput
    else if 0 < sn.length ∧ 0 < sc.length then
      let dfSel := mixedData sn sc df
      if sn.length = 2 ∧ sc.length = 1 then
        match sn, sc with
        | [n1, n2], [cat] =>
          let safeCat := sanitize cat.name
          let dfFit := renameCols [(cat.name, safeCat)] dfSel
          Output.manovaCase n1.name n2.name cat.name dfSel
            (manovaFormula n1 n2 cat)
            (guardFit (fitManova (manovaFormula n1 n2 cat) dfFit) "MANOVA failed: ")
        | _, _ => Output.noOutput
      else if sn.length = 1 ∧ sc.length = 2 then
        match sn, sc with
        | [num], [cat1, cat2] =>
          let dfFit := renameCols
            [(cat1.name, sanitize cat1.name), (cat2.name, sanitize cat2.name),
             (num.name, sanitize num.name)] dfSel
          Output.anovaCase num.name cat1.name cat2.name dfFit
            (anovaFormula num cat1 cat2)
            (guardFit (fitOls (anovaFormula num cat1 cat2) dfFit) "Two-way ANOVA failed: ")
        | _, _ => Output.noOutput
      else
        Output.warning "For multivariate ANOVA, please select exactly: 2 numeric + 1 categorical, or 1 numeric + 2 categorical variables."
    else
      Output.noOutput

/-- The spec's Filter Selection model: per-column predicates combined by
logical AND produce the Filtered View, a recomputed projection of the rows. -/
def filteredView (preds : List (Row → Bool)) (rows : List Row) : List Row :=
  rows.filter (fun r => preds.all (fun p => p r))

/-- One top-to-bottom script run's widget state: the cached dataframe and the
current value of every selection widget. -/
structure SessionState where
  df : List Row
  uniFeature : Column
  bivarX : Column
  bivarY : Column
  multiFeatures : List Column

/-- The bivariate panel's render, as a function of the session state. -/
def renderBivar (s : SessionState) : Output :=
  bivarRoute s.bivarX s.bivarY

/-- The multivariate panel's render, as a function of the session state. -/
def renderMulti (fitManova fitOls : String → List Row → Except String String)
    (s : SessionState) : Output :=
  multiRoute fitManova fitOls s.df s.multiFeatures

/- ### Helper lemmas -/

theorem length_filter_mono {α : Type} (p q : α → Bool) (l : List α)
    (h : ∀ a ∈ l, p a = true → q a = true) :
    (l.filter p).length ≤ (l.filter q).length := by
  induction l with
  | nil => simp
  | cons x xs ih =>
    have ih2 := ih (fun a ha hpa => h a (List.mem_cons_of_mem _ ha) hpa)
    by_cases hp : p x = true
    · rw [List.filter_cons_of_pos hp,
        List.filter_cons_of_pos (h x (List.mem_cons_self x xs) hp)]
      simpa using ih2
    · rw [List.filter_cons_of_neg (by simpa using hp)]
      by_cases hq : q x = true
      · rw [List.filter_cons_of_pos hq]
        exact Nat.le_trans ih2 (Nat.le_succ _)
      · rw [List.filter_cons_of_neg (by simpa using hq)]
        exact ih2

theorem dropna_complete (cols : List String) (rows : List Row) :
    ∀ r ∈ dropna cols rows, ∀ c ∈ cols, (getCell r c).isSome = true := by
  intro r hr c hc
  have h := (List.mem_filter.mp hr).2
  rw [List.all_eq_true] at h
  exact h c hc

/-- Routing equation for the 2-numeric + 1-categorical shape: the branch
scatters `df_sel`, builds the MANOVA formula and guards the fit call. -/
theorem multiRoute_manova_eq (fitM fitO : String → List Row → Except String String)
    (df : List Row) (feats : List Column) (n1 n2 cat : Column)
    (hsn : selNumeric feats = [n1, n2]) (hsc : selCategorical feats = [cat]) :
    multiRoute fitM fitO df feats
    = Output.manovaCase n1.name n2.name cat.name (mixedData [n1, n2] [cat] df)
        (manovaFormula n1 n2 cat)
        (guardFit (fitM (manovaFormula n1 n2 cat)
          (renameCols [(cat.name, sanitize cat.name)] (mixedData [n1, n2] [cat] df)))
          "MANOVA failed: ") := by
  have hlen : 2 ≤ feats.length := by
    have h := List.length_filter_le (fun c => c.kind == Kind.numeric) feats
    rw [show feats.filter (fun c => c.kind == Kind.numeric) = selNumeric feats from rfl,
      hsn] at h
    simpa using h
  have hNot : ¬ feats.length < 2 := by omega
  simp [multiRoute, hsn, hsc, hNot]

/-- Routing equation for the 1-numeric + 2-categorical shape: the branch
renames all three columns in `df_sel`, builds the two-way ANOVA formula and
guards the `ols` fit call. -/
theorem multiRoute_anova_eq (fitM fitO : String → List Row → Except String String)
    (df : List Row) (feats : List Column) (num cat1 cat2 : Column)
    (hsn : selNumeric feats = [num]) (hsc : selCategorical feats = [cat1, cat2]) :
    multiRoute fitM fitO df feats
    = Output.anovaCase num.name cat1.name cat2.name
        (renameCols [(cat1.name, sanitize cat1.name), (cat2.name, sanitize cat2.name),
          (num.name, sanitize num.name)] (mixedData [num] [cat1, cat2] df))
        (anovaFormula num cat1 cat2)
        (guardFit (fitO (anovaFormula num cat1 cat2)
          (renameCols [(cat1.name, sanitize cat1.name), (cat2.name, sanitize cat2.name),
            (num.name, sanitize num.name)] (mixedData [num] [cat1, cat2] df)))
          "Two-way ANOVA failed: ") := by
  have hlen : 2 ≤ feats.length := by
    have h := List.length_filter_le (fun c => c.kind == Kind.categorical) feats
    rw [show feats.filter (fun c => c.kind == Kind.categorical) = selCategorical feats from rfl,
      hsc] at h
    simpa using h
  have hNot : ¬ feats.length < 2 := by omega
  simp [multiRoute, hsn, hsc, hNot]

/- ### Concrete columns and rows used by witnesses -/

def colIncome : Column := ⟨"Income", Kind.numeric⟩

def colCLV : Column := ⟨"Customer Lifetime Value", Kind.numeric⟩

def colEducation : Column := ⟨"Education", Kind.categorical⟩

def colMarital : Column := ⟨"Marital Status", Kind.categorical⟩

def colGender : Column := ⟨"Gender", Kind.categorical⟩

def colEnrollment : Column := ⟨"EnrollmentDateOpening", Kind.datetime⟩

def rowComplete : Row :=
  [("Income", some 50000), ("Customer Lifetime Value", some 7000), ("Education", some 1)]

def rowMissingCLV : Row :=
  [("Income", some 30000), ("Customer Lifetime Value", none), ("Education", some 2)]

def dfPair : List Row := [rowComplete, rowMissingCLV]

def incomeAtLeast (bound : Int) : Row → Bool := fun r =>
  match getCell r "Income" with
  | some v => bound ≤ v
  | none => false

def okFit : String → List Row → Except String String := fun _ _ => Except.ok "fitted"

/- ### Claim theorems -/

/-- C1: the claim states that when two selected raw column names normalize to
the same sanitized identifier, the router detects the collision before
constructing the model formula, fails with an 'ambiguous variable name' error,
and invokes no model fitting. The code has no such check: on the selection
(numeric `Loyalty_Status`, numeric `Income`, categorical `Loyalty Status`),
where `sanitize` maps the categorical name onto the first numeric name, the
2-numeric + 1-categorical branch builds the corrupted formula
`Loyalty_Status + Income ~ C(Loyalty_Status)` and invokes the MANOVA fit (the
`summary "fitted"` in the output can only come from the fit collaborator being
called), surfacing no collision error. -/
theorem c1_collision_not_detected_fit_invoked :
    sanitize "Loyalty Status" = "Loyalty_Status" ∧
    multiRoute okFit okFit []
      [⟨"Loyalty_Status", Kind.numeric⟩, ⟨"Income", Kind.numeric⟩,
       ⟨"Loyalty Status", Kind.categorical⟩]
    = Output.manovaCase "Loyalty_Status" "Income" "Loyalty Status" []
        "Loyalty_Status + Income ~ C(Loyalty_Status)" (FitOutcome.summary "fitted") :=
  ⟨rfl, by decide⟩

/-- C2 counterexample: the claim states that a multivariate selection of three
categorical columns (zero numeric) is rejected with no recipe rendered; on the
concrete selection Education, Marital Status, Gender the dispatcher instead
renders the stacked-bar recipe over the first two categorical columns. -/
theorem c2_three_categorical_not_rejected :
    multiRoute okFit okFit [] [colEducation, colMarital, colGender]
    = Output.stackedBar "Education" "Marital Status" := by decide

/-- C2 (amended): every multivariate selection of exactly three categorical
columns and zero numeric columns matches the `≥2 categorical, 0 numeric`
branch and renders the stacked bar chart over the first two selected
categorical columns; it is not rejected. -/
theorem c2_three_categorical_routes_to_stacked_bar
    (fitM fitO : String → List Row → Except String String) (df : List Row)
    (c1 c2 c3 : Column) (h1 : c1.kind = Kind.categorical)
    (h2 : c2.kind = Kind.categorical) (h3 : c3.kind = Kind.categorical) :
    multiRoute fitM fitO df [c1, c2, c3] = Output.stackedBar c1.name c2.name := by
  simp [multiRoute, selNumeric, selCategorical, h1, h2, h3]

/-- Witness for C2 (amended) at the concrete selection Gender, Education,
Marital Status. -/
theorem c2_three_categorical_routes_to_stacked_bar_witness :
    multiRoute okFit okFit [] [colGender, colEducation, colMarital]
    = Output.stackedBar "Gender" "Education" :=
  c2_three_categorical_routes_to_stacked_bar okFit okFit []
    colGender colEducation colMarital rfl rfl rfl

/-- C3: a two-variable selection of exactly one numeric and one categorical
column (in either dropdown order) falls to the mixed branch of the bivariate
dispatcher and renders the horizontal violin recipe with the numeric column on
the value axis split by the categorical column — never the scatter recipe and
never the correlation heatmap. -/
theorem c3_one_numeric_one_categorical_violin (x y : Column)
    (hx : x.kind = Kind.numeric) (hy : y.kind = Kind.categorical) :
    bivarRoute x y = Output.violin x.name y.name ∧
    bivarRoute y x = Output.violin x.name y.name ∧
    (∀ a b, bivarRoute x y ≠ Output.scatter a b ∧ bivarRoute y x ≠ Output.scatter a b) ∧
    (∀ cols, bivarRoute x y ≠ Output.heatmap cols ∧ bivarRoute y x ≠ Output.heatmap cols) := by
  have h1 : bivarRoute x y = Output.violin x.name y.name := by simp [bivarRoute, hx, hy]
  have h2 : bivarRoute y x = Output.violin x.name y.name := by simp [bivarRoute, hx, hy]
  exact ⟨h1, h2, fun a b => ⟨by simp [h1], by simp [h2]⟩,
    fun cols => ⟨by simp [h1], by simp [h2]⟩⟩

/-- Witness for C3 at the concrete pair Income (numeric), Education
(categorical), in both orders. -/
theorem c3_one_numeric_one_categorical_violin_witness :
    bivarRoute colIncome colEducation = Output.violin "Income" "Education" ∧
    bivarRoute colEducation colIncome = Output.violin "Income" "Education" :=
  ⟨(c3_one_numeric_one_categorical_violin colIncome colEducation rfl rfl).1,
   (c3_one_numeric_one_categorical_violin colIncome colEducation rfl rfl).2.1⟩

/-- C4: a two-variable selection of exactly two numeric columns (and zero
categorical) takes the first branch of the bivariate dispatcher — the scatter
plot with OLS trend line — and never the correlation heatmap (the heatmap
branch lives only in the later, multivariate `≥2 numeric` dispatch). -/
theorem c4_two_numeric_scatter_not_heatmap (x y : Column)
    (hx : x.kind = Kind.numeric) (hy : y.kind = Kind.numeric) :
    bivarRoute x y = Output.scatter x.name y.name ∧
    ∀ cols, bivarRoute x y ≠ Output.heatmap cols := by
  have h : bivarRoute x y = Output.scatter x.name y.name := by simp [bivarRoute, hx, hy]
  exact ⟨h, fun cols => by simp [h]⟩

/-- Witness for C4 at the concrete pair Income, Customer Lifetime Value. -/
theorem c4_two_numeric_scatter_not_heatmap_witness :
    bivarRoute colIncome colCLV = Output.scatter "Income" "Customer Lifetime Value" :=
  (c4_two_numeric_scatter_not_heatmap colIncome colCLV rfl rfl).1

/-- C5: in both valid mixed multivariate shapes, when the model-fitting
collaborator raises (here: a fitter that raises message `e` on every call),
the dispatcher catches the exception and surfaces the underlying message in
place of the result — `MANOVA failed: e` / `Two-way ANOVA failed: e` — while
still returning a normal output (total function, so the session never
crashes). -/
theorem c5_fit_error_caught_and_surfaced :
    (∀ (fitO : String → List Row → Except String String) (df : List Row)
        (feats : List Column) (n1 n2 cat : Column) (e : String),
      selNumeric feats = [n1, n2] → selCategorical feats = [cat] →
      multiRoute (fun _ _ => Except.error e) fitO df feats
        = Output.manovaCase n1.name n2.name cat.name (mixedData [n1, n2] [cat] df)
            (manovaFormula n1 n2 cat)
            (FitOutcome.errorShown ("MANOVA failed: " ++ e))) ∧
    (∀ (fitM : String → List Row → Except String String) (df : List Row)
        (feats : List Column) (num cat1 cat2 : Column) (e : String),
      selNumeric feats = [num] → selCategorical feats = [cat1, cat2] →
      multiRoute fitM (fun _ _ => Except.error e) df feats
        = Output.anovaCase num.name cat1.name cat2.name
            (renameCols [(cat1.name, sanitize cat1.name), (cat2.name, sanitize cat2.name),
              (num.name, sanitize num.name)] (mixedData [num] [cat1, cat2] df))
            (anovaFormula num cat1 cat2)
            (FitOutcome.errorShown ("Two-way ANOVA failed: " ++ e))) := by
  constructor
  · intro fitO df feats n1 n2 cat e hsn hsc
    simpa [guardFit] using
      multiRoute_manova_eq (fun _ _ => Except.error e) fitO df feats n1 n2 cat hsn hsc
  · intro fitM df feats num cat1 cat2 e hsn hsc
    simpa [guardFit] using
      multiRoute_anova_eq fitM (fun _ _ => Except.error e) df feats num cat1 cat2 hsn hsc

/-- Witness for C5: a fitter raising `singular matrix` on the concrete
selections Income + Customer Lifetime Value + Education (MANOVA shape) and
Income + Education + Gender (two-way ANOVA shape). -/
theorem c5_fit_error_caught_and_surfaced_witness :
    multiRoute (fun _ _ => Except.error "singular matrix") okFit []
      [colIncome, colCLV, colEducation]
    = Output.manovaCase "Income" "Customer Lifetime Value" "Education"
        (mixedData [colIncome, colCLV] [colEducation] [])
        (manovaFormula colIncome colCLV colEducation)
        (FitOutcome.errorShown ("MANOVA failed: " ++ "singular matrix")) ∧
    multiRoute okFit (fun _ _ => Except.error "singular matrix") []
      [colIncome, colEducation, colGender]
    = Output.anovaCase "Income" "Education" "Gender"
        (renameCols [("Education", sanitize "Education"), ("Gender", sanitize "Gender"),
          ("Income", sanitize "Income")] (mixedData [colIncome] [colEducation, colGender] []))
        (anovaFormula colIncome colEducation colGender)
        (FitOutcome.errorShown ("Two-way ANOVA failed: " ++ "singular matrix")) :=
  ⟨c5_fit_error_caught_and_surfaced.1 okFit [] [colIncome, colCLV, colEducation]
      colIncome colCLV colEducation "singular matrix" (by decide) (by decide),
   c5_fit_error_caught_and_surfaced.2 okFit [] [colIncome, colEducation, colGender]
      colIncome colEducation colGender "singular matrix" (by decide) (by decide)⟩

/-- C6: for every combination of filter predicates the Filtered View is a
sublist of the dataset rows (so a subset with no row duplicated or
fabricated), and replacing the predicate list by a pointwise-stronger one —
which covers both adding a predicate and tightening a range or shrinking a
selected set — never increases the row count. -/
theorem c6_filtered_view_subset_and_monotone
    (preds tightened : List (Row → Bool)) (rows : List Row) :
    List.Sublist (filteredView preds rows) rows ∧
    ((∀ r, tightened.all (fun p => p r) = true → preds.all (fun p => p r) = true) →
      (filteredView tightened rows).length ≤ (filteredView preds rows).length) := by
  constructor
  · exact List.filter_sublist rows
  · intro h
    exact length_filter_mono _ _ rows (fun r _ hr => h r hr)

/-- Witness for C6: adding an income-range predicate to the empty predicate
list on a concrete two-row dataset; the view stays a sublist and the row count
does not increase (here the incomplete-income row is dropped). -/
theorem c6_filtered_view_subset_and_monotone_witness :
    List.Sublist (filteredView [incomeAtLeast 40000] dfPair) dfPair ∧
    (filteredView [incomeAtLeast 40000] dfPair).length ≤
      (filteredView ([] : List (Row → Bool)) dfPair).length ∧
    filteredView [incomeAtLeast 40000] dfPair = [rowComplete] :=
  ⟨(c6_filtered_view_subset_and_monotone [incomeAtLeast 40000] [] dfPair).1,
   (c6_filtered_view_subset_and_monotone [] [incomeAtLeast 40000] dfPair).2
     (fun _ _ => rfl),
   by decide⟩

/-- C7: the routing of both the bivariate panel and the multivariate panel is
a deterministic function of the (cached) dataframe and the selection widgets:
two session states agreeing on those — here they may differ in any other
widget, e.g. the univariate selection — render identically, so re-running the
script with an unchanged selection and view reproduces the same recipe and
output. -/
theorem c7_routing_deterministic
    (fitM fitO : String → List Row → Except String String) (s t : SessionState)
    (hdf : s.df = t.df) (hx : s.bivarX = t.bivarX) (hy : s.bivarY = t.bivarY)
    (hm : s.multiFeatures = t.multiFeatures) :
    renderBivar s = renderBivar t ∧
    renderMulti fitM fitO s = renderMulti fitM fitO t := by
  constructor <;> simp [renderBivar, renderMulti, hdf, hx, hy, hm]

/-- Witness for C7: two concrete states differing only in the univariate
selection render the bivariate and multivariate panels identically. -/
theorem c7_routing_deterministic_witness :
    renderBivar ⟨dfPair, colIncome, colIncome, colEducation, [colIncome, colCLV]⟩
      = renderBivar ⟨dfPair, colGender, colIncome, colEducation, [colIncome, colCLV]⟩ ∧
    renderMulti okFit okFit ⟨dfPair, colIncome, colIncome, colEducation, [colIncome, colCLV]⟩
      = renderMulti okFit okFit
          ⟨dfPair, colGender, colIncome, colEducation, [colIncome, colCLV]⟩ :=
  c7_routing_deterministic okFit okFit
    ⟨dfPair, colIncome, colIncome, colEducation, [colIncome, colCLV]⟩
    ⟨dfPair, colGender, colIncome, colEducation, [colIncome, colCLV]⟩
    rfl rfl rfl rfl

/-- C8: every multivariate selection of fewer than two features — including the
empty selection — is rejected by the `len(multi_features) < 2` guard with the
message `Please select at least two features.` and no chart or statistical
branch is reached. -/
theorem c8_fewer_than_two_features_rejected
    (fitM fitO : String → List Row → Except String String)
    (df : List Row) (feats : List Column) (h : feats.length < 2) :
    multiRoute fitM fitO df feats = Output.info "Please select at least two features." := by
  simp [multiRoute, h]

/-- Witness for C8 at the empty selection. -/
theorem c8_fewer_than_two_features_rejected_witness :
    multiRoute okFit okFit dfPair [] = Output.info "Please select at least two features." :=
  c8_fewer_than_two_features_rejected okFit okFit dfPair [] (by decide)

/-- C9: a column whose stored dtype is neither numeric nor object — such as the
two parsed date columns — is classified as neither Numeric nor Categorical: the
univariate panel renders it with the categorical countplot branch, and any
bivariate pairing containing it falls to the mixed branch and is rejected with
the `Please select one numeric and one categorical variable.` warning,
whatever the other column's kind. -/
theorem c9_datetime_neither_numeric_nor_categorical (c y : Column)
    (hc : c.kind = Kind.datetime) :
    univariateRoute c = Output.countplot c.name ∧
    bivarRoute c y = Output.warning "Please select one numeric and one categorical variable." ∧
    bivarRoute y c = Output.warning "Please select one numeric and one categorical variable." := by
  refine ⟨by simp [univariateRoute, hc], ?_, ?_⟩ <;>
  · rcases y with ⟨nm, k⟩
    cases k <;> simp [bivarRoute, hc]

/-- Witness for C9 at the parsed EnrollmentDateOpening column paired with the
numeric Income column. -/
theorem c9_datetime_neither_numeric_nor_categorical_witness :
    univariateRoute colEnrollment = Output.countplot "EnrollmentDateOpening" ∧
    bivarRoute colEnrollment colIncome
      = Output.warning "Please select one numeric and one categorical variable." ∧
    bivarRoute colIncome colEnrollment
      = Output.warning "Please select one numeric and one categorical variable." :=
  c9_datetime_neither_numeric_nor_categorical colEnrollment colIncome rfl

/-- C10: in both mixed multivariate shapes the branch data is
`df[selected_numeric + selected_categorical].dropna()`: the plot and the fit of
the MANOVA case receive exactly that frame (the fit after the categorical
rename), the two-way ANOVA case receives its column-wise rename (same rows,
row for row), and every row of that frame is complete — present in every
selected column. -/
theorem c10_mixed_analysis_drops_incomplete_rows
    (fitM fitO : String → List Row → Except String String)
    (df : List Row) (feats : List Column) :
    (∀ n1 n2 cat : Column, selNumeric feats = [n1, n2] → selCategorical feats = [cat] →
      multiRoute fitM fitO df feats
        = Output.manovaCase n1.name n2.name cat.name (mixedData [n1, n2] [cat] df)
            (manovaFormula n1 n2 cat)
            (guardFit (fitM (manovaFormula n1 n2 cat)
              (renameCols [(cat.name, sanitize cat.name)] (mixedData [n1, n2] [cat] df)))
              "MANOVA failed: ") ∧
      (∀ r ∈ mixedData [n1, n2] [cat] df, ∀ c ∈ [n1.name, n2.name, cat.name],
        (getCell r c).isSome = true)) ∧
    (∀ num cat1 cat2 : Column, selNumeric feats = [num] → selCategorical feats = [cat1, cat2] →
      multiRoute fitM fitO df feats
        = Output.anovaCase num.name cat1.name cat2.name
            (renameCols [(cat1.name, sanitize cat1.name), (cat2.name, sanitize cat2.name),
              (num.name, sanitize num.name)] (mixedData [num] [cat1, cat2] df))
            (anovaFormula num cat1 cat2)
            (guardFit (fitO (anovaFormula num cat1 cat2)
              (renameCols [(cat1.name, sanitize cat1.name), (cat2.name, sanitize cat2.name),
                (num.name, sanitize num.name)] (mixedData [num] [cat1, cat2] df)))
              "Two-way ANOVA failed: ") ∧
      (renameCols [(cat1.name, sanitize cat1.name), (cat2.name, sanitize cat2.name),
          (num.name, sanitize num.name)] (mixedData [num] [cat1, cat2] df)).length
        = (mixedData [num] [cat1, cat2] df).length ∧
      (∀ r ∈ mixedData [num] [cat1, cat2] df, ∀ c ∈ [num.name, cat1.name, cat2.name],
        (getCell r c).isSome = true)) := by
  constructor
  · intro n1 n2 cat hsn hsc
    refine ⟨multiRoute_manova_eq fitM fitO df feats n1 n2 cat hsn hsc, ?_⟩
    have h := dropna_complete ([n1, n2] ++ [cat] |>.map Column.name) df
    simpa [mixedData] using h
  · intro num cat1 cat2 hsn hsc
    refine ⟨multiRoute_anova_eq fitM fitO df feats num cat1 cat2 hsn hsc, ?_, ?_⟩
    · simp [renameCols]
    · have h := dropna_complete ([num] ++ [cat1, cat2] |>.map Column.name) df
      simpa [mixedData] using h

/-- Witness for C10: on a concrete frame with one complete row and one row
lacking a Customer Lifetime Value, the MANOVA-shape branch computes its data by
`dropna`, which keeps exactly the complete row. -/
theorem c10_mixed_analysis_drops_incomplete_rows_witness :
    multiRoute okFit okFit dfPair [colIncome, colCLV, colEducation]
      = Output.manovaCase "Income" "Customer Lifetime Value" "Education"
          (mixedData [colIncome, colCLV] [colEducation] dfPair)
          (manovaFormula colIncome colCLV colEducation)
          (guardFit (okFit (manovaFormula colIncome colCLV colEducation)
            (renameCols [("Education", sanitize "Education")]
              (mixedData [colIncome, colCLV] [colEducation] dfPair)))
            "MANOVA failed: ") ∧
    mixedData [colIncome, colCLV] [colEducation] dfPair = [rowComplete] :=
  ⟨((c10_mixed_analysis_drops_incomplete_rows okFit okFit dfPair
      [colIncome, colCLV, colEducation]).1 colIncome colCLV colEducation
      (by decide) (by decide)).1,
   by decide⟩

end Dashboard
